import Mathlib

/-!
Verification development for the Lark shipment-tracking bot
(`main.py`, `carriers.py`, `lark_client.py`, `config.py`).

Python strings are modelled as `List Char` (`PyStr`); the Python string
methods used by the code (`lower`, `upper`, `strip`, slicing, `in`) are
embedded as functions on `PyStr`.  Dictionaries with a fixed, known key
set are modelled as structures; dictionary lookup tables are association
lists.  Network calls are modelled by an `HttpOutcome` value describing
what the `try` block observes: a raised non-HTTP exception, an HTTP
error status raised by `raise_for_status`, or a parsed payload.
-/

/-- Python `str` values, modelled as lists of characters. -/
abbrev PyStr := List Char

/-- Embeds `str.lower` on a single character (ASCII, as used by the code's
carrier keys and status codes). -/
def pyLowerChar (c : Char) : Char :=
  if 65 ≤ c.toNat ∧ c.toNat ≤ 90 then Char.ofNat (c.toNat + 32) else c

/-- Embeds `str.upper` on a single character. -/
def pyUpperChar (c : Char) : Char :=
  if 97 ≤ c.toNat ∧ c.toNat ≤ 122 then Char.ofNat (c.toNat - 32) else c

/-- Embeds `str.lower`. -/
def pyLower (s : PyStr) : PyStr := s.map pyLowerChar

/-- Embeds `str.upper`. -/
def pyUpper (s : PyStr) : PyStr := s.map pyUpperChar

/-- Whitespace characters stripped by `str.strip`. -/
def isSpaceChar (c : Char) : Bool :=
  c.toNat = 32 ∨ c.toNat = 9 ∨ c.toNat = 10 ∨ c.toNat = 13 ∨
  c.toNat = 11 ∨ c.toNat = 12

/-- Embeds `str.strip`: drop whitespace from both ends. -/
def pyStrip (s : PyStr) : PyStr :=
  ((s.dropWhile isSpaceChar).reverse.dropWhile isSpaceChar).reverse

/-- Embeds the slice `s[:n]`. -/
def pyTake (n : Nat) (s : PyStr) : PyStr := s.take n

/-- Embeds `", ".join(filter(None, parts))` where absent dict keys give
`None` and empty strings are also dropped by `filter(None, ...)`. -/
def joinComma (parts : List (Option PyStr)) : PyStr :=
  List.intercalate (", ".data) ((parts.filterMap id).filter (fun p => p ≠ []))

/-- Association-list lookup embedding `dict.get(key, default)`. -/
def dictGetD (table : List (PyStr × PyStr)) (key dflt : PyStr) : PyStr :=
  match table with
  | [] => dflt
  | (k, v) :: rest => if key = k then v else dictGetD rest key dflt

/-- Association-list membership embedding `key in dict`. -/
def dictHasKey (table : List (PyStr × PyStr)) (key : PyStr) : Bool :=
  match table with
  | [] => false
  | (k, _) :: rest => key = k ∨ dictHasKey rest key

/-- Embeds Python's `needle in haystack` substring test. -/
def containsSub (haystack needle : PyStr) : Bool :=
  match haystack with
  | [] => needle.isPrefixOf []
  | _ :: rest => needle.isPrefixOf haystack ∨ containsSub rest needle

/-! ## `config.py` -/

/-- `config.COLUMNS`: semantic field → sheet column letter (A–Q). -/
def COLUMNS : List (PyStr × PyStr) :=
  [("shipment_id".data, "A".data), ("vendor".data, "B".data),
   ("recipient".data, "C".data), ("order_num".data, "D".data),
   ("customer".data, "E".data), ("product_photo".data, "F".data),
   ("tracking_num".data, "G".data), ("carrier".data, "H".data),
   ("qty_shipped".data, "I".data), ("qty_expected".data, "J".data),
   ("discrepancy".data, "K".data), ("balance_owed".data, "L".data),
   ("status".data, "M".data), ("tariff_charge".data, "N".data),
   ("num_boxes".data, "O".data), ("notes".data, "P".data),
   ("delivery_date".data, "Q".data)]

/-- `config.CARRIER_ALIASES`: sheet carrier text → API client key. -/
def CARRIER_ALIASES : List (PyStr × PyStr) :=
  [("fedex".data, "fedex".data),
   ("fed ex".data, "fedex".data),
   ("federal express".data, "fedex".data),
   ("ups".data, "ups".data),
   ("united parcel".data, "ups".data),
   ("usps".data, "usps".data),
   ("us postal".data, "usps".data),
   ("united states postal".data, "usps".data),
   ("dhl".data, "dhl".data),
   ("dhl express".data, "dhl".data),
   ("royal mail".data, "royalmail".data),
   ("royalmail".data, "royalmail".data),
   ("royal".data, "royalmail".data),
   ("rm".data, "royalmail".data)]

/-- `CARRIER_ALIASES.values()` membership, as used by `process_sheet`. -/
def carrierAliasValues : List PyStr := CARRIER_ALIASES.map Prod.snd

/-- `config.STATUS_MAP`: status key → display label written to column M. -/
def STATUS_MAP : List (PyStr × PyStr) :=
  [("delivered".data, "DELIVERED".data),
   ("in_transit".data, "IN TRANSIT".data),
   ("out_for_delivery".data, "OUT FOR DELIVERY".data),
   ("exception".data, "EXCEPTION".data),
   ("pending".data, "PENDING".data),
   ("label_created".data, "LABEL CREATED".data),
   ("unknown".data, "UNKNOWN".data),
   ("not_found".data, "NOT FOUND".data)]

/-- `STATUS_MAP.get(status, STATUS_MAP["unknown"])` as used by
`normalize_result`. -/
def statusMapGet (status : PyStr) : PyStr :=
  dictGetD STATUS_MAP status "UNKNOWN".data

/-- The fixed `status_key` enumeration of the spec. -/
def statusKeys : List PyStr :=
  ["delivered".data, "in_transit".data, "out_for_delivery".data,
   "exception".data, "label_created".data, "pending".data,
   "not_found".data, "unknown".data]

/-! ## `carriers.py` — normalized results and adapters -/

/-- The dict returned by `carriers.normalize_result`. -/
structure NormalizedResult where
  status : PyStr
  status_key : PyStr
  delivery_date : PyStr
  location : PyStr
  raw_status : PyStr
  error : PyStr
deriving Repr, DecidableEq

/-- `carriers.normalize_result(status, delivery_date, location, raw_status,
error)`: the display `status` is `STATUS_MAP.get(status, STATUS_MAP["unknown"])`
and `status_key` is the argument itself. -/
def normalize_result (status delivery_date location raw_status error : PyStr) :
    NormalizedResult :=
  { status := statusMapGet status
    status_key := status
    delivery_date := delivery_date
    location := location
    raw_status := raw_status
    error := error }

/-- What a tracker's `try` block observes from the network stack:
either some exception other than an HTTP status error was raised
(connection error, timeout, auth failure, missing credentials, parse
or index error), or `resp.raise_for_status()` raised an `HTTPError`
with the given status code and message, or the call succeeded and
parsing produced the payload `α`. -/
inductive HttpOutcome (α : Type) where
  | exn (msg : PyStr)
  | httpStatus (code : Nat) (msg : PyStr)
  | ok (payload : α)
deriving Repr, DecidableEq

/-- The `results` dict a successful FedEx track call is reduced to
(`data["output"]["completeTrackResults"][0]["trackResults"][0]`). -/
structure FedExResults where
  /-- `results.get("error")`: `some msg` when the error object is present,
  carrying `error.get("message", "")`. -/
  error : Option PyStr
  /-- `latestStatusDetail.get("code", "")`. -/
  code : PyStr
  /-- `latestStatusDetail.get("description", "")`. -/
  description : PyStr
  /-- `scanLocation` city / state / country, `none` when absent. -/
  city : Option PyStr
  state : Option PyStr
  country : Option PyStr
  /-- `results.get("dateAndTimes", [])` as (type, dateTime) pairs. -/
  dateAndTimes : List (PyStr × PyStr)
deriving Repr, DecidableEq

/-- FedEx per-carrier status table (`FedExTracker.track`). -/
def fedexStatusMap : List (PyStr × PyStr) :=
  [("DL".data, "delivered".data),
   ("IT".data, "in_transit".data),
   ("OD".data, "out_for_delivery".data),
   ("DE".data, "exception".data),
   ("PU".data, "in_transit".data),
   ("PL".data, "label_created".data)]

/-- First `dateAndTimes` entry of type `ACTUAL_DELIVERY` or
`ESTIMATED_DELIVERY`, truncated to `[:10]`; empty if none. -/
def fedexDeliveryDate : List (PyStr × PyStr) → PyStr
  | [] => []
  | (ty, dt) :: rest =>
    if ty = "ACTUAL_DELIVERY".data ∨ ty = "ESTIMATED_DELIVERY".data then
      pyTake 10 dt
    else fedexDeliveryDate rest

/-- `FedExTracker.track`.  An `HTTPError` (any status, 404 included) is
caught by the generic `except Exception` handler. -/
def FedExTracker.track (o : HttpOutcome FedExResults) : NormalizedResult :=
  match o with
  | .exn msg => normalize_result "unknown".data [] [] [] msg
  | .httpStatus _ msg => normalize_result "unknown".data [] [] [] msg
  | .ok r =>
    match r.error with
    | some m => normalize_result "not_found".data [] [] [] m
    | none =>
      let status_code := pyUpper r.code
      let raw_status := r.description
      let location := joinComma [r.city, r.state, r.country]
      let status := dictGetD fedexStatusMap status_code "in_transit".data
      let delivery_date := fedexDeliveryDate r.dateAndTimes
      normalize_result status delivery_date location raw_status []

/-- One entry of the UPS `activity` list. -/
structure UPSActivity where
  /-- `status.get("type", "")`. -/
  statusType : PyStr
  /-- `status.get("description", "")`. -/
  statusDescription : PyStr
  city : Option PyStr
  state : Option PyStr
  country : Option PyStr
  /-- `activity[0].get("date", "")`. -/
  date : PyStr
deriving Repr, DecidableEq

/-- The parsed UPS payload: package activity plus
`package.get("deliveryDate", [])` reduced to its date strings. -/
structure UPSResponse where
  activity : List UPSActivity
  deliveryDate : List PyStr
deriving Repr, DecidableEq

/-- UPS per-carrier status table (`UPSTracker.track`). -/
def upsStatusMap : List (PyStr × PyStr) :=
  [("D".data, "delivered".data),
   ("I".data, "in_transit".data),
   ("P".data, "in_transit".data),
   ("M".data, "label_created".data),
   ("X".data, "exception".data),
   ("O".data, "out_for_delivery".data)]

/-- Reformat an 8-digit `YYYYMMDD` string with dashes, as both UPS date
branches do (`if date_str and len(date_str) == 8`); otherwise keep the
previous (empty) value. -/
def dashDate8 (s : PyStr) : PyStr :=
  if s ≠ [] ∧ s.length = 8 then
    s.take 4 ++ "-".data ++ (s.drop 4).take 2 ++ "-".data ++ s.drop 6
  else []

/-- `UPSTracker.track`.  An `HTTPError` is caught by the generic
`except Exception` handler. -/
def UPSTracker.track (o : HttpOutcome UPSResponse) : NormalizedResult :=
  match o with
  | .exn msg => normalize_result "unknown".data [] [] [] msg
  | .httpStatus _ msg => normalize_result "unknown".data [] [] [] msg
  | .ok r =>
    match r.activity with
    | [] => normalize_result "not_found".data [] [] [] []
    | latest :: _ =>
      let status_type := pyUpper latest.statusType
      let raw_status := latest.statusDescription
      let location := joinComma [latest.city, latest.state, latest.country]
      let status := dictGetD upsStatusMap status_type "in_transit".data
      let delivery_date :=
        match r.deliveryDate with
        | [] => []
        | d :: _ => dashDate8 d
      let delivery_date :=
        if status = "delivered".data ∧ delivery_date = [] then
          dashDate8 latest.date
        else delivery_date
      normalize_result status delivery_date location raw_status []

/-- The parsed USPS payload (top-level tracking JSON fields; absent
fields are the empty string, matching `data.get(k, "")`). -/
structure USPSResponse where
  statusCategory : PyStr
  status : PyStr
  destinationCity : PyStr
  destinationState : PyStr
  actualDeliveryDate : PyStr
  expectedDeliveryDate : PyStr
deriving Repr, DecidableEq

/-- USPS per-carrier status table (`USPSTracker.track`). -/
def uspsStatusMap : List (PyStr × PyStr) :=
  [("DELIVERED".data, "delivered".data),
   ("IN_TRANSIT".data, "in_transit".data),
   ("OUT_FOR_DELIVERY".data, "out_for_delivery".data),
   ("ALERT".data, "exception".data),
   ("PRE_TRANSIT".data, "label_created".data),
   ("ACCEPTED".data, "in_transit".data)]

/-- `USPSTracker.track`.  An `HTTPError` with status 404 is converted to
`not_found` (with empty error); other HTTP errors and all other
exceptions become `unknown`. -/
def USPSTracker.track (o : HttpOutcome USPSResponse) : NormalizedResult :=
  match o with
  | .exn msg => normalize_result "unknown".data [] [] [] msg
  | .httpStatus code msg =>
    if code = 404 then normalize_result "not_found".data [] [] [] []
    else normalize_result "unknown".data [] [] [] msg
  | .ok r =>
    let status_category := pyUpper r.statusCategory
    let raw_status := r.status
    let location := joinComma
      [if r.destinationCity ≠ [] then some r.destinationCity else none,
       if r.destinationState ≠ [] then some r.destinationState else none]
    let status := dictGetD uspsStatusMap status_category "in_transit".data
    let delivery_date :=
      if r.actualDeliveryDate ≠ [] then pyTake 10 r.actualDeliveryDate
      else if r.expectedDeliveryDate ≠ [] then pyTake 10 r.expectedDeliveryDate
      else []
    normalize_result status delivery_date location raw_status []

/-- The first element of the DHL `shipments` list. -/
structure DHLShipment where
  /-- `status.get("statusCode", "")`. -/
  statusCode : PyStr
  /-- `status.get("description", "")`. -/
  description : PyStr
  /-- `status.location.address.addressLocality`, empty when absent. -/
  addressLocality : PyStr
  /-- `status.get("timestamp", "")`. -/
  timestamp : PyStr
  /-- `shipment.get("estimatedTimeOfDelivery")` when it is a string,
  empty when absent. -/
  estimatedTimeOfDelivery : PyStr
deriving Repr, DecidableEq

/-- The parsed DHL payload. -/
structure DHLResponse where
  shipments : List DHLShipment
deriving Repr, DecidableEq

/-- DHL per-carrier status table (`DHLTracker.track`). -/
def dhlStatusMap : List (PyStr × PyStr) :=
  [("delivered".data, "delivered".data),
   ("transit".data, "in_transit".data),
   ("failure".data, "exception".data),
   ("pre-transit".data, "label_created".data),
   ("unknown".data, "unknown".data)]

/-- `DHLTracker.track`.  An `HTTPError` with status 404 is converted to
`not_found`; other failures become `unknown`. -/
def DHLTracker.track (o : HttpOutcome DHLResponse) : NormalizedResult :=
  match o with
  | .exn msg => normalize_result "unknown".data [] [] [] msg
  | .httpStatus code msg =>
    if code = 404 then normalize_result "not_found".data [] [] [] []
    else normalize_result "unknown".data [] [] [] msg
  | .ok r =>
    match r.shipments with
    | [] => normalize_result "not_found".data [] [] [] []
    | shipment :: _ =>
      let status_code := pyLower shipment.statusCode
      let raw_status := shipment.description
      let location := shipment.addressLocality
      let status := dictGetD dhlStatusMap status_code "in_transit".data
      let delivery_date :=
        if status = "delivered".data then
          if shipment.timestamp ≠ [] then pyTake 10 shipment.timestamp else []
        else if shipment.estimatedTimeOfDelivery ≠ [] then
          pyTake 10 shipment.estimatedTimeOfDelivery
        else []
      normalize_result status delivery_date location raw_status []

/-- One Royal Mail tracking event. -/
structure RMEvent where
  locationName : PyStr
  eventDateTime : PyStr
deriving Repr, DecidableEq

/-- The first element of the Royal Mail `mailPieces` list. -/
structure RMPiece where
  events : List RMEvent
  /-- `summary.get("statusDescription", "")`. -/
  statusDescription : PyStr
  /-- `summary.get("estimatedDeliveryDate", {})`: `some start` when the
  dict is non-empty, carrying `get("startOfEstimatedWindow", "")`. -/
  estimatedDeliveryDate : Option PyStr
deriving Repr, DecidableEq

/-- The parsed Royal Mail payload. -/
structure RMResponse where
  mailPieces : List RMPiece
deriving Repr, DecidableEq

/-- The ordered substring-matching chain of `RoyalMailTracker.track`
applied to the lowercased status description; first match wins. -/
def rmStatusOf (status_desc : PyStr) : PyStr :=
  if containsSub status_desc "delivered".data then "delivered".data
  else if containsSub status_desc "out for delivery".data ∨
          containsSub status_desc "with delivery".data then
    "out_for_delivery".data
  else if containsSub status_desc "collected".data ∨
          containsSub status_desc "accepted".data then
    "in_transit".data
  else if containsSub status_desc "in transit".data ∨
          containsSub status_desc "transit".data then
    "in_transit".data
  else if containsSub status_desc "arrived".data then "in_transit".data
  else if containsSub status_desc "exception".data ∨
          containsSub status_desc "returned".data ∨
          containsSub status_desc "failed".data then
    "exception".data
  else if containsSub status_desc "posted".data ∨
          containsSub status_desc "dispatched".data then
    "label_created".data
  else "in_transit".data

/-- `RoyalMailTracker.track`.  An `HTTPError` with status 404 is
converted to `not_found`; other failures become `unknown`. -/
def RoyalMailTracker.track (o : HttpOutcome RMResponse) : NormalizedResult :=
  match o with
  | .exn msg => normalize_result "unknown".data [] [] [] msg
  | .httpStatus code msg =>
    if code = 404 then normalize_result "not_found".data [] [] [] []
    else normalize_result "unknown".data [] [] [] msg
  | .ok r =>
    match r.mailPieces with
    | [] => normalize_result "not_found".data [] [] [] []
    | piece :: _ =>
      let status_desc := pyLower piece.statusDescription
      let raw_status := piece.statusDescription
      let location :=
        match piece.events with
        | [] => []
        | latest :: _ => latest.locationName
      let status := rmStatusOf status_desc
      let delivery_date :=
        if status = "delivered".data then
          match piece.events with
          | [] => []
          | latest :: _ =>
            if latest.eventDateTime ≠ [] then pyTake 10 latest.eventDateTime
            else []
        else []
      let delivery_date :=
        match piece.estimatedDeliveryDate with
        | some start =>
          if delivery_date = [] then
            if start ≠ [] then pyTake 10 start else delivery_date
          else delivery_date
        | none => delivery_date
      normalize_result status delivery_date location raw_status []

/-! ## `carriers.py` — the router (`CarrierTracker`) -/

/-- One upstream observation per carrier client owned by a
`CarrierTracker`; routing selects which one a call consumes. -/
structure Upstreams where
  fedex : HttpOutcome FedExResults
  ups : HttpOutcome UPSResponse
  usps : HttpOutcome USPSResponse
  dhl : HttpOutcome DHLResponse
  royalmail : HttpOutcome RMResponse

/-- `CarrierTracker.track(tracking_number, carrier)`: dispatch on the
`self._clients` keys; an unknown carrier yields
`normalize_result("unknown", error=f"Unsupported carrier: {carrier}")`. -/
def CarrierTracker.track (u : Upstreams) (carrier : PyStr) : NormalizedResult :=
  if carrier = "fedex".data then FedExTracker.track u.fedex
  else if carrier = "ups".data then UPSTracker.track u.ups
  else if carrier = "usps".data then USPSTracker.track u.usps
  else if carrier = "dhl".data then DHLTracker.track u.dhl
  else if carrier = "royalmail".data then RoyalMailTracker.track u.royalmail
  else normalize_result "unknown".data [] [] []
    ("Unsupported carrier: ".data ++ carrier)

/-! ## `main.py` — reconciliation of one tracked row -/

/-- `main.BAD_STATUSES`: display statuses meaning the carrier API gave
nothing real. -/
def BAD_STATUSES : List PyStr := ["UNKNOWN".data, "NOT FOUND".data, []]

/-- `main.DONE_STATUSES`: statuses meaning the shipment is done. -/
def DONE_STATUSES : List PyStr := ["DELIVERED".data]

/-- `main.normalize_carrier`:
`CARRIER_ALIASES.get(carrier_str.lower().strip(), carrier_str.lower().strip())`. -/
def normalize_carrier (carrier_str : PyStr) : PyStr :=
  dictGetD CARRIER_ALIASES (pyStrip (pyLower carrier_str))
    (pyStrip (pyLower carrier_str))

/-- One row dict produced by `LarkClient.read_tracking_data` (the fields
`process_sheet` and the summary consume). -/
structure TrackedRow where
  row_num : Nat
  shipment_id : PyStr
  recipient : PyStr
  customer : PyStr
  tracking_num : PyStr
  carrier : PyStr
  current_status : PyStr
  delivery_date : PyStr
deriving Repr, DecidableEq

/-- One dict appended to `all_results` by `process_sheet`: the row's
fields spread via `**row` plus the keys the branch sets.  The
unknown-carrier branch leaves `raw_status` unset, which readers
(`_shipment_line`) observe as the empty string. -/
structure ReportEntry where
  row : TrackedRow
  new_status : PyStr
  delivery_date : PyStr
  raw_status : PyStr
  tab : PyStr
deriving Repr, DecidableEq

/-- The effect of `process_sheet` on one row: whether
`tracker.track` was invoked, the `update_tracking_row` call issued (row
number, new status, new delivery date), and the entry appended to
`all_results` (`none` when the row was skipped as already delivered). -/
structure RowDecision where
  adapterCalled : Bool
  write : Option (Nat × PyStr × PyStr)
  report : Option ReportEntry
deriving Repr, DecidableEq

/-- The per-row body of `main.process_sheet` (lines 103–166): skip
delivered rows, report unknown carriers with the stored status carried
forward, otherwise call the carrier API via the router and either keep
the stored state (bad result) or report the fresh status and write it
back when it changed. -/
def processRow (u : Upstreams) (dryRun : Bool) (tab : PyStr)
    (row : TrackedRow) : RowDecision :=
  let current_status := pyUpper (pyStrip row.current_status)
  if current_status ∈ DONE_STATUSES then
    { adapterCalled := false, write := none, report := none }
  else
    let carrier := normalize_carrier row.carrier
    if carrier = [] ∨ carrier ∉ carrierAliasValues then
      { adapterCalled := false, write := none
        report := some { row := row
                         new_status := if current_status ≠ [] then current_status
                                       else "UNKNOWN CARRIER".data
                         delivery_date := row.delivery_date
                         raw_status := []
                         tab := tab } }
    else
      let result := CarrierTracker.track u carrier
      let new_status := result.status
      let delivery_date := result.delivery_date
      let raw_status := result.raw_status
      let api_error := result.error
      if api_error ≠ [] ∨ pyUpper new_status ∈ BAD_STATUSES then
        let display_status := if current_status ≠ [] then current_status
                              else "PENDING".data
        { adapterCalled := true, write := none
          report := some { row := row
                           new_status := display_status
                           delivery_date := row.delivery_date
                           raw_status := raw_status
                           tab := tab } }
      else
        { adapterCalled := true
          write := if ¬dryRun ∧ pyUpper new_status ≠ current_status then
                     some (row.row_num, new_status, delivery_date)
                   else none
          report := some { row := row
                           new_status := new_status
                           delivery_date := delivery_date
                           raw_status := raw_status
                           tab := tab } }

/-! ## `lark_client.py` — cell writes -/

/-- One entry of the `updates` list passed to `LarkClient.write_cells`:
a single-cell write of `value` at column `col`, row `row`. -/
structure CellUpdate where
  row : Nat
  col : PyStr
  value : PyStr
deriving Repr, DecidableEq

/-- `COLUMNS[key]` (the key is always present where the code uses it). -/
def columnsAt (key : PyStr) : PyStr := dictGetD COLUMNS key []

/-- `LarkClient.update_tracking_row(…, row_num, status, delivery_date)`:
the list of cell updates it hands to `write_cells`. -/
def update_tracking_row (row_num : Nat) (status delivery_date : PyStr) :
    List CellUpdate :=
  let updates := [{ row := row_num, col := columnsAt "status".data,
                    value := status }]
  let updates :=
    if delivery_date ≠ [] then
      updates ++ [{ row := row_num, col := columnsAt "delivery_date".data,
                    value := delivery_date }]
    else updates
  updates

/-- A sheet tab's cell contents, addressed by column letter and row. -/
def Sheet := PyStr → Nat → PyStr

/-- The effect of `write_cells` on a sheet: each update overwrites its
one-cell range `col row : col row`. -/
def applyCellUpdates (updates : List CellUpdate) (sheet : Sheet) : Sheet :=
  updates.foldl
    (fun sh u => fun c r => if c = u.col ∧ r = u.row then u.value else sh c r)
    sheet

/-! ## `lark_client.py` — daily summary (lines 315–327) -/

/-- The outcome of the filtering/dedup prefix of
`LarkClient.send_daily_summary`: either the "all delivered" sentinel
message is sent instead of a report, or the deduplicated item list is
handed to the section renderer. -/
inductive SummaryPlan where
  | sentinel (message : PyStr)
  | report (unique : List ReportEntry)
deriving Repr, DecidableEq

/-- `active = [r for r in all_results if r.get("new_status", "").upper() != "DELIVERED"]`. -/
def summaryActive (all_results : List ReportEntry) : List ReportEntry :=
  all_results.filter (fun r => pyUpper r.new_status ≠ "DELIVERED".data)

/-- The dedup loop of `send_daily_summary`: keep a result when its
stripped tracking number is non-empty and not yet in `seen`. -/
def summaryDedup : List ReportEntry → List PyStr → List ReportEntry
  | [], _ => []
  | r :: rest, seen =>
    let tn := pyStrip r.row.tracking_num
    if tn ≠ [] ∧ tn ∉ seen then r :: summaryDedup rest (tn :: seen)
    else summaryDedup rest seen

/-- `LarkClient.send_daily_summary`, up to the point where the kept
items are handed to the per-section renderer (lines 315–327): drop
delivered items, send the sentinel message when none remain, otherwise
deduplicate by tracking number. -/
def sendDailySummaryPlan (all_results : List ReportEntry) : SummaryPlan :=
  let active := summaryActive all_results
  if active = [] then
    .sentinel "All shipments delivered. Nothing to track today.".data
  else
    .report (summaryDedup active [])

/-- Modelled from the spec: "Deduplicate by tracking identifier, keeping
first occurrence (stable ordering from the scan order of tracked
items)" — keep each list element whose key has not occurred earlier. -/
def keepFirstByKey {α β : Type} [DecidableEq β] (key : α → β) :
    List α → List α
  | [] => []
  | x :: xs => x :: (keepFirstByKey key xs).filter (fun y => key y ≠ key x)

/-! ## Helper lemmas: dictionaries -/

theorem dictGetD_eq_default_or_mem (t : List (PyStr × PyStr)) (k d : PyStr) :
    dictGetD t k d = d ∨ dictGetD t k d ∈ t.map Prod.snd := by
  induction t with
  | nil => left; rfl
  | cons hd tl ih =>
    simp only [dictGetD]
    split
    · right; simp
    · rcases ih with h | h
      · left; exact h
      · right; simp only [List.map_cons, List.mem_cons]; right; exact h

theorem dictGetD_of_not_hasKey (t : List (PyStr × PyStr)) (k d : PyStr)
    (h : dictHasKey t k = false) : dictGetD t k d = d := by
  induction t with
  | nil => rfl
  | cons hd tl ih =>
    simp only [dictHasKey, Bool.or_eq_false_iff, decide_eq_false_iff_not] at h
    push_neg at h
    simp only [dictGetD, if_neg h.1]
    exact ih (by simpa using h.2)

theorem dictGetD_irrel_of_hasKey (t : List (PyStr × PyStr)) (k d₁ d₂ : PyStr)
    (h : dictHasKey t k = true) : dictGetD t k d₁ = dictGetD t k d₂ := by
  induction t with
  | nil => simp [dictHasKey] at h
  | cons hd tl ih =>
    simp only [dictHasKey, Bool.or_eq_true, decide_eq_true_eq] at h
    by_cases hk : k = hd.1
    · simp [dictGetD, hk]
    · rcases h with h | h
      · exact absurd h hk
      · simp only [dictGetD, if_neg hk]
        exact ih h

theorem mem_of_dictGetD_hasKey (t : List (PyStr × PyStr)) (k d : PyStr)
    (h : dictHasKey t k = true) : dictGetD t k d ∈ t.map Prod.snd := by
  induction t with
  | nil => simp [dictHasKey] at h
  | cons hd tl ih =>
    simp only [dictHasKey, Bool.or_eq_true, decide_eq_true_eq] at h
    simp only [dictGetD]
    by_cases hk : k = hd.1
    · simp [hk]
    · rcases h with h | h
      · exact absurd h hk
      · simp only [if_neg hk, List.map_cons, List.mem_cons]
        right; exact ih h

/-! ## Helper lemmas: Python string primitives -/

theorem pyLowerChar_toNat_of_upper {c : Char} (h65 : 65 ≤ c.toNat)
    (h90 : c.toNat ≤ 90) : (pyLowerChar c).toNat = c.toNat + 32 := by
  have hvalid : (c.toNat + 32).isValidChar := Or.inl (by omega)
  simp only [pyLowerChar, if_pos (And.intro h65 h90), Char.ofNat]
  rw [dif_pos hvalid]
  rfl

theorem pyLowerChar_eq_self {c : Char}
    (h : ¬(65 ≤ c.toNat ∧ c.toNat ≤ 90)) : pyLowerChar c = c := by
  rw [pyLowerChar, if_neg h]

theorem pyLowerChar_idem (c : Char) :
    pyLowerChar (pyLowerChar c) = pyLowerChar c := by
  by_cases h : 65 ≤ c.toNat ∧ c.toNat ≤ 90
  · have ht := pyLowerChar_toNat_of_upper h.1 h.2
    have hno : ¬(65 ≤ (pyLowerChar c).toNat ∧ (pyLowerChar c).toNat ≤ 90) := by
      omega
    exact pyLowerChar_eq_self hno
  · rw [pyLowerChar_eq_self h]
    exact pyLowerChar_eq_self h

theorem isSpaceChar_pyLowerChar (c : Char) :
    isSpaceChar (pyLowerChar c) = isSpaceChar c := by
  by_cases h : 65 ≤ c.toNat ∧ c.toNat ≤ 90
  · have ht := pyLowerChar_toNat_of_upper h.1 h.2
    simp only [isSpaceChar]
    have h1 : c.toNat ≠ 32 ∧ c.toNat ≠ 9 ∧ c.toNat ≠ 10 ∧ c.toNat ≠ 13 ∧
        c.toNat ≠ 11 ∧ c.toNat ≠ 12 := by omega
    have h2 : (pyLowerChar c).toNat ≠ 32 ∧ (pyLowerChar c).toNat ≠ 9 ∧
        (pyLowerChar c).toNat ≠ 10 ∧ (pyLowerChar c).toNat ≠ 13 ∧
        (pyLowerChar c).toNat ≠ 11 ∧ (pyLowerChar c).toNat ≠ 12 := by omega
    simp [h1.1, h1.2.1, h1.2.2.1, h1.2.2.2.1, h1.2.2.2.2.1, h1.2.2.2.2.2,
      h2.1, h2.2.1, h2.2.2.1, h2.2.2.2.1, h2.2.2.2.2.1, h2.2.2.2.2.2]
  · rw [pyLowerChar_eq_self h]

theorem pyLower_idem (s : PyStr) : pyLower (pyLower s) = pyLower s := by
  simp only [pyLower, List.map_map]
  exact List.map_congr_left (fun c _ => pyLowerChar_idem c)

theorem dropWhile_head_false {α : Type} (p : α → Bool) (l : List α) (a : α)
    (t : List α) (h : l.dropWhile p = a :: t) : p a = false := by
  induction l with
  | nil => simp [List.dropWhile] at h
  | cons x xs ih =>
    rw [List.dropWhile_cons] at h
    split at h
    · exact ih h
    · rename_i hx
      injection h with h1 _
      subst h1
      simpa using hx

theorem dropWhile_eq_self_of_head {α : Type} (p : α → Bool) (l : List α)
    (h : ∀ a t, l = a :: t → p a = false) : l.dropWhile p = l := by
  cases l with
  | nil => rfl
  | cons a t =>
    apply List.dropWhile_cons_of_neg
    simp [h a t rfl]

theorem dropWhile_idem {α : Type} (p : α → Bool) (l : List α) :
    (l.dropWhile p).dropWhile p = l.dropWhile p := by
  apply dropWhile_eq_self_of_head
  intro a t h
  exact dropWhile_head_false p l a t h

theorem trimRight_prefix (p : Char → Bool) (l : PyStr) :
    (l.reverse.dropWhile p).reverse <+: l := by
  have hs : l.reverse.dropWhile p <:+ l.reverse := List.dropWhile_suffix p
  have := List.reverse_prefix.mpr hs
  rwa [List.reverse_reverse] at this

theorem pyStrip_idem (s : PyStr) : pyStrip (pyStrip s) = pyStrip s := by
  set p := isSpaceChar with hp
  set A := s.dropWhile p with hA
  set T := (A.reverse.dropWhile p).reverse with hT
  have hTstrip : pyStrip s = T := rfl
  have hpre : T <+: A := trimRight_prefix p A
  have hTdrop : T.dropWhile p = T := by
    apply dropWhile_eq_self_of_head
    intro a t h
    rcases hpre with ⟨rest, hrest⟩
    rw [h] at hrest
    have hAhead : s.dropWhile p = a :: (t ++ rest) := by
      rw [← hA, ← hrest]; simp
    exact dropWhile_head_false p s a (t ++ rest) hAhead
  have hTtrim : (T.reverse.dropWhile p).reverse = T := by
    rw [hT, List.reverse_reverse, dropWhile_idem]
  rw [hTstrip]
  show ((T.dropWhile isSpaceChar).reverse.dropWhile isSpaceChar).reverse = T
  rw [← hp, hTdrop, hTtrim]

theorem pyStrip_pyLower_comm (s : PyStr) :
    pyStrip (pyLower s) = pyLower (pyStrip s) := by
  have hpf : isSpaceChar ∘ pyLowerChar = isSpaceChar :=
    funext isSpaceChar_pyLowerChar
  simp only [pyLower, pyStrip, List.dropWhile_map, hpf, List.map_reverse]
  rw [← List.map_reverse, List.dropWhile_map, hpf]

theorem stripLower_idem (s : PyStr) :
    pyStrip (pyLower (pyStrip (pyLower s))) = pyStrip (pyLower s) := by
  rw [← pyStrip_pyLower_comm (pyLower s), pyStrip_idem, pyLower_idem]

/-! ## Helper lemmas: carrier normalization -/

theorem normalize_carrier_fixed_values :
    ∀ v ∈ carrierAliasValues, normalize_carrier v = v := by decide

theorem normalize_carrier_mem_or_eq (s : PyStr) :
    (dictHasKey CARRIER_ALIASES (pyStrip (pyLower s)) = true ∧
     normalize_carrier s ∈ carrierAliasValues) ∨
    (dictHasKey CARRIER_ALIASES (pyStrip (pyLower s)) = false ∧
     normalize_carrier s = pyStrip (pyLower s)) := by
  cases h : dictHasKey CARRIER_ALIASES (pyStrip (pyLower s)) with
  | true =>
    left
    exact ⟨rfl, mem_of_dictGetD_hasKey _ _ _ h⟩
  | false =>
    right
    exact ⟨rfl, dictGetD_of_not_hasKey _ _ _ h⟩

/-! ## Helper lemmas: status keys and labels -/

theorem mem_statusKeys_of_table (t : List (PyStr × PyStr)) (k d : PyStr)
    (hd : d ∈ statusKeys) (ht : ∀ v ∈ t.map Prod.snd, v ∈ statusKeys) :
    dictGetD t k d ∈ statusKeys := by
  rcases dictGetD_eq_default_or_mem t k d with h | h
  · rw [h]; exact hd
  · exact ht _ h

theorem rmStatusOf_mem (d : PyStr) : rmStatusOf d ∈ statusKeys := by
  unfold rmStatusOf
  split_ifs <;> decide

theorem unknown_mem_statusKeys : "unknown".data ∈ statusKeys := by decide

theorem notFound_mem_statusKeys : "not_found".data ∈ statusKeys := by decide

/-- A normalized result is well formed when its `status_key` is in the
fixed enumeration and its display `status` is the `STATUS_MAP` image of
the key — exactly what `normalize_result` guarantees for enumerated
keys. -/
def WFResult (r : NormalizedResult) : Prop :=
  r.status_key ∈ statusKeys ∧ r.status = statusMapGet r.status_key

theorem wf_fedex (o : HttpOutcome FedExResults) :
    WFResult (FedExTracker.track o) := by
  cases o with
  | exn msg => exact ⟨unknown_mem_statusKeys, rfl⟩
  | httpStatus code msg => exact ⟨unknown_mem_statusKeys, rfl⟩
  | ok r =>
    cases herr : r.error with
    | some m =>
      simp only [FedExTracker.track, herr]
      exact ⟨notFound_mem_statusKeys, rfl⟩
    | none =>
      simp only [FedExTracker.track, herr]
      exact ⟨mem_statusKeys_of_table _ _ _ (by decide) (by decide), rfl⟩

theorem wf_ups (o : HttpOutcome UPSResponse) :
    WFResult (UPSTracker.track o) := by
  cases o with
  | exn msg => exact ⟨unknown_mem_statusKeys, rfl⟩
  | httpStatus code msg => exact ⟨unknown_mem_statusKeys, rfl⟩
  | ok r =>
    cases hact : r.activity with
    | nil =>
      simp only [UPSTracker.track, hact]
      exact ⟨notFound_mem_statusKeys, rfl⟩
    | cons latest rest =>
      simp only [UPSTracker.track, hact]
      exact ⟨mem_statusKeys_of_table _ _ _ (by decide) (by decide), rfl⟩

theorem wf_usps (o : HttpOutcome USPSResponse) :
    WFResult (USPSTracker.track o) := by
  cases o with
  | exn msg => exact ⟨unknown_mem_statusKeys, rfl⟩
  | httpStatus code msg =>
    by_cases hc : code = 404
    · simp only [USPSTracker.track, if_pos hc]
      exact ⟨notFound_mem_statusKeys, rfl⟩
    · simp only [USPSTracker.track, if_neg hc]
      exact ⟨unknown_mem_statusKeys, rfl⟩
  | ok r =>
    simp only [USPSTracker.track]
    exact ⟨mem_statusKeys_of_table _ _ _ (by decide) (by decide), rfl⟩

theorem wf_dhl (o : HttpOutcome DHLResponse) :
    WFResult (DHLTracker.track o) := by
  cases o with
  | exn msg => exact ⟨unknown_mem_statusKeys, rfl⟩
  | httpStatus code msg =>
    by_cases hc : code = 404
    · simp only [DHLTracker.track, if_pos hc]
      exact ⟨notFound_mem_statusKeys, rfl⟩
    · simp only [DHLTracker.track, if_neg hc]
      exact ⟨unknown_mem_statusKeys, rfl⟩
  | ok r =>
    cases hs : r.shipments with
    | nil =>
      simp only [DHLTracker.track, hs]
      exact ⟨notFound_mem_statusKeys, rfl⟩
    | cons shipment rest =>
      simp only [DHLTracker.track, hs]
      exact ⟨mem_statusKeys_of_table _ _ _ (by decide) (by decide), rfl⟩

theorem wf_rm (o : HttpOutcome RMResponse) :
    WFResult (RoyalMailTracker.track o) := by
  cases o with
  | exn msg => exact ⟨unknown_mem_statusKeys, rfl⟩
  | httpStatus code msg =>
    by_cases hc : code = 404
    · simp only [RoyalMailTracker.track, if_pos hc]
      exact ⟨notFound_mem_statusKeys, rfl⟩
    · simp only [RoyalMailTracker.track, if_neg hc]
      exact ⟨unknown_mem_statusKeys, rfl⟩
  | ok r =>
    cases hp : r.mailPieces with
    | nil =>
      simp only [RoyalMailTracker.track, hp]
      exact ⟨notFound_mem_statusKeys, rfl⟩
    | cons piece rest =>
      simp only [RoyalMailTracker.track, hp]
      exact ⟨rmStatusOf_mem _, rfl⟩

theorem wf_router (u : Upstreams) (carrier : PyStr) :
    WFResult (CarrierTracker.track u carrier) := by
  unfold CarrierTracker.track
  split_ifs
  · exact wf_fedex _
  · exact wf_ups _
  · exact wf_usps _
  · exact wf_dhl _
  · exact wf_rm _
  · exact ⟨unknown_mem_statusKeys, rfl⟩

theorem errKey_fedex (o : HttpOutcome FedExResults)
    (h : (FedExTracker.track o).error ≠ []) :
    (FedExTracker.track o).status_key = "unknown".data ∨
    (FedExTracker.track o).status_key = "not_found".data := by
  cases o with
  | exn msg => left; rfl
  | httpStatus code msg => left; rfl
  | ok r =>
    cases herr : r.error with
    | some m =>
      right
      simp only [FedExTracker.track, herr]
      rfl
    | none =>
      exfalso
      apply h
      simp only [FedExTracker.track, herr]
      rfl

theorem errKey_ups (o : HttpOutcome UPSResponse)
    (h : (UPSTracker.track o).error ≠ []) :
    (UPSTracker.track o).status_key = "unknown".data ∨
    (UPSTracker.track o).status_key = "not_found".data := by
  cases o with
  | exn msg => left; rfl
  | httpStatus code msg => left; rfl
  | ok r =>
    exfalso
    apply h
    cases hact : r.activity with
    | nil =>
      simp only [UPSTracker.track, hact]
      rfl
    | cons latest rest =>
      simp only [UPSTracker.track, hact]
      rfl

theorem errKey_usps (o : HttpOutcome USPSResponse)
    (h : (USPSTracker.track o).error ≠ []) :
    (USPSTracker.track o).status_key = "unknown".data ∨
    (USPSTracker.track o).status_key = "not_found".data := by
  cases o with
  | exn msg => left; rfl
  | httpStatus code msg =>
    by_cases hc : code = 404
    · right
      simp only [USPSTracker.track, if_pos hc]
      rfl
    · left
      simp only [USPSTracker.track, if_neg hc]
      rfl
  | ok r =>
    exfalso
    apply h
    simp only [USPSTracker.track]
    rfl

theorem errKey_dhl (o : HttpOutcome DHLResponse)
    (h : (DHLTracker.track o).error ≠ []) :
    (DHLTracker.track o).status_key = "unknown".data ∨
    (DHLTracker.track o).status_key = "not_found".data := by
  cases o with
  | exn msg => left; rfl
  | httpStatus code msg =>
    by_cases hc : code = 404
    · right
      simp only [DHLTracker.track, if_pos hc]
      rfl
    · left
      simp only [DHLTracker.track, if_neg hc]
      rfl
  | ok r =>
    exfalso
    apply h
    cases hs : r.shipments with
    | nil =>
      simp only [DHLTracker.track, hs]
      rfl
    | cons shipment rest =>
      simp only [DHLTracker.track, hs]
      rfl

theorem errKey_rm (o : HttpOutcome RMResponse)
    (h : (RoyalMailTracker.track o).error ≠ []) :
    (RoyalMailTracker.track o).status_key = "unknown".data ∨
    (RoyalMailTracker.track o).status_key = "not_found".data := by
  cases o with
  | exn msg => left; rfl
  | httpStatus code msg =>
    by_cases hc : code = 404
    · right
      simp only [RoyalMailTracker.track, if_pos hc]
      rfl
    · left
      simp only [RoyalMailTracker.track, if_neg hc]
      rfl
  | ok r =>
    exfalso
    apply h
    cases hp : r.mailPieces with
    | nil =>
      simp only [RoyalMailTracker.track, hp]
      rfl
    | cons piece rest =>
      simp only [RoyalMailTracker.track, hp]
      rfl

theorem errKey_router (u : Upstreams) (carrier : PyStr)
    (h : (CarrierTracker.track u carrier).error ≠ []) :
    (CarrierTracker.track u carrier).status_key = "unknown".data ∨
    (CarrierTracker.track u carrier).status_key = "not_found".data := by
  unfold CarrierTracker.track at *
  split_ifs at *
  · exact errKey_fedex _ h
  · exact errKey_ups _ h
  · exact errKey_usps _ h
  · exact errKey_dhl _ h
  · exact errKey_rm _ h
  · left; rfl

/-! ## Claims -/

/-- C5: every Normalized Result produced by any adapter or by the Router
(including its unknown-carrier fallback) has a `status_key` in the fixed
enumeration {delivered, in_transit, out_for_delivery, exception,
label_created, pending, not_found, unknown}, and whenever its `error`
field is non-empty, its `status_key` is `unknown` or `not_found`. -/
theorem C5_router_result_invariant (u : Upstreams) (carrier : PyStr) :
    (CarrierTracker.track u carrier).status_key ∈ statusKeys ∧
    ((CarrierTracker.track u carrier).error ≠ [] →
      (CarrierTracker.track u carrier).status_key = "unknown".data ∨
      (CarrierTracker.track u carrier).status_key = "not_found".data) :=
  ⟨(wf_router u carrier).1, errKey_router u carrier⟩

/-- Witness for C5 at a concrete input: a FedEx exception outcome has a
non-empty error and its key is `unknown` or `not_found`. -/
theorem C5_router_result_invariant_witness :
    (CarrierTracker.track
      ⟨.exn "timeout".data, .exn "x".data, .exn "x".data, .exn "x".data,
       .exn "x".data⟩ "fedex".data).error ≠ [] ∧
    ((CarrierTracker.track
      ⟨.exn "timeout".data, .exn "x".data, .exn "x".data, .exn "x".data,
       .exn "x".data⟩ "fedex".data).status_key = "unknown".data ∨
     (CarrierTracker.track
      ⟨.exn "timeout".data, .exn "x".data, .exn "x".data, .exn "x".data,
       .exn "x".data⟩ "fedex".data).status_key = "not_found".data) := by
  constructor
  · decide
  · exact (C5_router_result_invariant
      ⟨.exn "timeout".data, .exn "x".data, .exn "x".data, .exn "x".data,
       .exn "x".data⟩ "fedex".data).2 (by decide)

/-- C10: `normalize_carrier` is idempotent: applying it twice gives the
same result as applying it once, because every canonical carrier key
produced by the alias table is itself an alias key mapping to itself,
and lowercasing-with-trim is idempotent. -/
theorem C10_normalize_carrier_idempotent (s : PyStr) :
    normalize_carrier (normalize_carrier s) = normalize_carrier s := by
  rcases normalize_carrier_mem_or_eq s with ⟨_, hmem⟩ | ⟨h, heq⟩
  · exact normalize_carrier_fixed_values _ hmem
  · have h2 : normalize_carrier (pyStrip (pyLower s)) = pyStrip (pyLower s) := by
      unfold normalize_carrier
      rw [stripLower_idem]
      exact dictGetD_of_not_hasKey _ _ _ h
    rw [heq]
    exact h2

/-- C4 counterexample: an HTTP 404 response to the FedEx adapter is
caught by its generic `except Exception` handler and produces
`status_key = unknown`, not `not_found` as the claim requires for
HTTP 404 responses. -/
theorem C4_fedex_404_not_notFound :
    (FedExTracker.track
      (.httpStatus 404 "404 Client Error: Not Found".data)).status_key ≠
      "not_found".data ∧
    (FedExTracker.track
      (.httpStatus 404 "404 Client Error: Not Found".data)).status_key =
      "unknown".data := by
  constructor
  · decide
  · rfl

/-- C4 (amended): for every carrier adapter, `track` never raises past
its own boundary: every failure outcome (a raised exception or an HTTP
error status) is converted into a Normalized Result whose `status_key`
is `unknown` for generic failures, or `not_found` when the upstream
explicitly reports no such shipment; HTTP 404 responses are converted
to `not_found` by the USPS, DHL and Royal Mail adapters, while the
FedEx and UPS adapters convert every HTTP error (404 included) to
`unknown` and detect not-found from the response payload instead. -/
theorem C4_failures_contained (msg : PyStr) (code : Nat) :
    (FedExTracker.track (.exn msg)).status_key = "unknown".data ∧
    (FedExTracker.track (.httpStatus code msg)).status_key = "unknown".data ∧
    (UPSTracker.track (.exn msg)).status_key = "unknown".data ∧
    (UPSTracker.track (.httpStatus code msg)).status_key = "unknown".data ∧
    (USPSTracker.track (.exn msg)).status_key = "unknown".data ∧
    (USPSTracker.track (.httpStatus 404 msg)).status_key = "not_found".data ∧
    (code ≠ 404 →
      (USPSTracker.track (.httpStatus code msg)).status_key =
        "unknown".data) ∧
    (DHLTracker.track (.exn msg)).status_key = "unknown".data ∧
    (DHLTracker.track (.httpStatus 404 msg)).status_key = "not_found".data ∧
    (code ≠ 404 →
      (DHLTracker.track (.httpStatus code msg)).status_key =
        "unknown".data) ∧
    (RoyalMailTracker.track (.exn msg)).status_key = "unknown".data ∧
    (RoyalMailTracker.track (.httpStatus 404 msg)).status_key =
      "not_found".data ∧
    (code ≠ 404 →
      (RoyalMailTracker.track (.httpStatus code msg)).status_key =
        "unknown".data) := by
  refine ⟨rfl, rfl, rfl, rfl, rfl, rfl, ?_, rfl, rfl, ?_, rfl, rfl, ?_⟩
  · intro hc
    simp only [USPSTracker.track, if_neg hc]
    rfl
  · intro hc
    simp only [DHLTracker.track, if_neg hc]
    rfl
  · intro hc
    simp only [RoyalMailTracker.track, if_neg hc]
    rfl

/-- Witness for C4 (amended) at a concrete input: a 500 HTTP error and
an exception message, with the non-404 hypotheses discharged. -/
theorem C4_failures_contained_witness :
    (FedExTracker.track (.exn "boom".data)).status_key = "unknown".data ∧
    (USPSTracker.track (.httpStatus 404 "boom".data)).status_key =
      "not_found".data ∧
    (USPSTracker.track (.httpStatus 500 "boom".data)).status_key =
      "unknown".data ∧
    (DHLTracker.track (.httpStatus 500 "boom".data)).status_key =
      "unknown".data ∧
    (RoyalMailTracker.track (.httpStatus 500 "boom".data)).status_key =
      "unknown".data := by
  obtain ⟨h1, _, _, _, _, h6, h7, _, _, h10, _, _, h13⟩ :=
    C4_failures_contained "boom".data 500
  exact ⟨h1, h6, h7 (by decide), h10 (by decide), h13 (by decide)⟩

/-- C8: for each API-based adapter (FedEx, UPS, USPS, DHL) and every
successful upstream response carrying a shipment whose native status
code is absent from that adapter's mapping table, the produced
`status_key` is `in_transit` rather than `unknown`. -/
theorem C8_unmapped_code_in_transit
    (fr : FedExResults) (ur : UPSResponse) (latest : UPSActivity)
    (urest : List UPSActivity) (sr : USPSResponse) (dr : DHLResponse)
    (ds : DHLShipment) (drest : List DHLShipment)
    (hfe : fr.error = none)
    (hfc : dictHasKey fedexStatusMap (pyUpper fr.code) = false)
    (hua : ur.activity = latest :: urest)
    (huc : dictHasKey upsStatusMap (pyUpper latest.statusType) = false)
    (hsc : dictHasKey uspsStatusMap (pyUpper sr.statusCategory) = false)
    (hds : dr.shipments = ds :: drest)
    (hdc : dictHasKey dhlStatusMap (pyLower ds.statusCode) = false) :
    (FedExTracker.track (.ok fr)).status_key = "in_transit".data ∧
    (UPSTracker.track (.ok ur)).status_key = "in_transit".data ∧
    (USPSTracker.track (.ok sr)).status_key = "in_transit".data ∧
    (DHLTracker.track (.ok dr)).status_key = "in_transit".data := by
  refine ⟨?_, ?_, ?_, ?_⟩
  · simp only [FedExTracker.track, hfe]
    show dictGetD fedexStatusMap (pyUpper fr.code) "in_transit".data = _
    exact dictGetD_of_not_hasKey _ _ _ hfc
  · simp only [UPSTracker.track, hua]
    show dictGetD upsStatusMap (pyUpper latest.statusType) "in_transit".data = _
    exact dictGetD_of_not_hasKey _ _ _ huc
  · simp only [USPSTracker.track]
    show dictGetD uspsStatusMap (pyUpper sr.statusCategory) "in_transit".data = _
    exact dictGetD_of_not_hasKey _ _ _ hsc
  · simp only [DHLTracker.track, hds]
    show dictGetD dhlStatusMap (pyLower ds.statusCode) "in_transit".data = _
    exact dictGetD_of_not_hasKey _ _ _ hdc

/-- Witness for C8 at concrete payloads whose native codes (`"ZZ"`,
`"W"`, `"RETURN_TO_SENDER"`, `"redirected"`) are unmapped. -/
theorem C8_unmapped_code_in_transit_witness :
    (FedExTracker.track
      (.ok ⟨none, "ZZ".data, [], none, none, none, []⟩)).status_key =
      "in_transit".data ∧
    (UPSTracker.track
      (.ok ⟨[⟨"W".data, [], none, none, none, []⟩], []⟩)).status_key =
      "in_transit".data ∧
    (USPSTracker.track
      (.ok ⟨"RETURN_TO_SENDER".data, [], [], [], [], []⟩)).status_key =
      "in_transit".data ∧
    (DHLTracker.track
      (.ok ⟨[⟨"redirected".data, [], [], [], []⟩]⟩)).status_key =
      "in_transit".data := by
  exact C8_unmapped_code_in_transit
    ⟨none, "ZZ".data, [], none, none, none, []⟩
    ⟨[⟨"W".data, [], none, none, none, []⟩], []⟩
    ⟨"W".data, [], none, none, none, []⟩ []
    ⟨"RETURN_TO_SENDER".data, [], [], [], [], []⟩
    ⟨[⟨"redirected".data, [], [], [], []⟩]⟩
    ⟨"redirected".data, [], [], [], []⟩ []
    (by decide) (by decide) (by decide) (by decide) (by decide)
    (by decide) (by decide)

/-! ## Helper lemmas: reconciliation branches -/

theorem bad_display_of_bad_key (r : NormalizedResult) (hwf : WFResult r)
    (h : r.status_key = "unknown".data ∨ r.status_key = "not_found".data) :
    pyUpper r.status ∈ BAD_STATUSES := by
  rcases h with h | h <;> rw [hwf.2, h] <;> decide

theorem good_display_of_good_key (r : NormalizedResult) (hwf : WFResult r)
    (h1 : r.status_key ≠ "unknown".data)
    (h2 : r.status_key ≠ "not_found".data) :
    pyUpper r.status ∉ BAD_STATUSES := by
  rw [hwf.2]
  have hall : ∀ k ∈ statusKeys, k ≠ "unknown".data → k ≠ "not_found".data →
      pyUpper (statusMapGet k) ∉ BAD_STATUSES := by decide
  exact hall _ hwf.1 h1 h2

theorem recognized_carrier_ne_nil {c : PyStr} (hc : c ∈ carrierAliasValues) :
    c ≠ [] := by
  intro he
  rw [he] at hc
  revert hc
  decide

theorem processRow_unknown_carrier_branch (u : Upstreams) (dryRun : Bool)
    (tab : PyStr) (row : TrackedRow)
    (hnd : pyUpper (pyStrip row.current_status) ∉ DONE_STATUSES)
    (hc : normalize_carrier row.carrier = [] ∨
          normalize_carrier row.carrier ∉ carrierAliasValues) :
    processRow u dryRun tab row =
      { adapterCalled := false, write := none,
        report := some
          { row := row,
            new_status := if pyUpper (pyStrip row.current_status) ≠ [] then
                            pyUpper (pyStrip row.current_status)
                          else "UNKNOWN CARRIER".data,
            delivery_date := row.delivery_date,
            raw_status := [],
            tab := tab } } := by
  simp only [processRow]
  rw [if_neg hnd, if_pos hc]

theorem processRow_bad_result_branch (u : Upstreams) (dryRun : Bool)
    (tab : PyStr) (row : TrackedRow)
    (hnd : pyUpper (pyStrip row.current_status) ∉ DONE_STATUSES)
    (hc : normalize_carrier row.carrier ∈ carrierAliasValues)
    (hbad : (CarrierTracker.track u (normalize_carrier row.carrier)).error ≠ [] ∨
      pyUpper (CarrierTracker.track u (normalize_carrier row.carrier)).status ∈
        BAD_STATUSES) :
    processRow u dryRun tab row =
      { adapterCalled := true, write := none,
        report := some
          { row := row,
            new_status := if pyUpper (pyStrip row.current_status) ≠ [] then
                            pyUpper (pyStrip row.current_status)
                          else "PENDING".data,
            delivery_date := row.delivery_date,
            raw_status :=
              (CarrierTracker.track u (normalize_carrier row.carrier)).raw_status,
            tab := tab } } := by
  have hcond : ¬(normalize_carrier row.carrier = [] ∨
      normalize_carrier row.carrier ∉ carrierAliasValues) := by
    push_neg
    exact ⟨recognized_carrier_ne_nil hc, hc⟩
  simp only [processRow]
  rw [if_neg hnd, if_neg hcond, if_pos hbad]

theorem processRow_good_result_branch (u : Upstreams) (dryRun : Bool)
    (tab : PyStr) (row : TrackedRow)
    (hnd : pyUpper (pyStrip row.current_status) ∉ DONE_STATUSES)
    (hc : normalize_carrier row.carrier ∈ carrierAliasValues)
    (hgood : ¬((CarrierTracker.track u
        (normalize_carrier row.carrier)).error ≠ [] ∨
      pyUpper (CarrierTracker.track u (normalize_carrier row.carrier)).status ∈
        BAD_STATUSES)) :
    processRow u dryRun tab row =
      { adapterCalled := true,
        write := if ¬dryRun ∧
            pyUpper (CarrierTracker.track u
              (normalize_carrier row.carrier)).status ≠
              pyUpper (pyStrip row.current_status) then
            some (row.row_num,
              (CarrierTracker.track u (normalize_carrier row.carrier)).status,
              (CarrierTracker.track u
                (normalize_carrier row.carrier)).delivery_date)
          else none,
        report := some
          { row := row,
            new_status :=
              (CarrierTracker.track u (normalize_carrier row.carrier)).status,
            delivery_date :=
              (CarrierTracker.track u
                (normalize_carrier row.carrier)).delivery_date,
            raw_status :=
              (CarrierTracker.track u (normalize_carrier row.carrier)).raw_status,
            tab := tab } } := by
  have hcond : ¬(normalize_carrier row.carrier = [] ∨
      normalize_carrier row.carrier ∉ carrierAliasValues) := by
    push_neg
    exact ⟨recognized_carrier_ne_nil hc, hc⟩
  simp only [processRow]
  rw [if_neg hnd, if_neg hcond, if_neg hgood]

/-- C3: a tracked item whose stored status is `delivered` is terminal:
the per-row step skips it entirely — no adapter call, no write, no
report entry — and its outcome does not depend on the upstream world or
the dry-run flag at all. -/
theorem C3_delivered_terminal (u₁ u₂ : Upstreams) (d₁ d₂ : Bool)
    (tab : PyStr) (row : TrackedRow)
    (h : pyUpper (pyStrip row.current_status) ∈ DONE_STATUSES) :
    processRow u₁ d₁ tab row =
      { adapterCalled := false, write := none, report := none } ∧
    processRow u₁ d₁ tab row = processRow u₂ d₂ tab row := by
  constructor
  · simp only [processRow]
    rw [if_pos h]
  · simp only [processRow]
    rw [if_pos h, if_pos h]

/-- Witness for C3 at a concrete delivered row. -/
theorem C3_delivered_terminal_witness :
    processRow
      ⟨.exn "a".data, .exn "b".data, .exn "c".data, .exn "d".data,
       .exn "e".data⟩ false "FEB".data
      { row_num := 3, shipment_id := [], recipient := [], customer := [],
        tracking_num := "T1".data, carrier := "FedEx".data,
        current_status := " Delivered ".data,
        delivery_date := "2026-02-20".data } =
      { adapterCalled := false, write := none, report := none } :=
  (C3_delivered_terminal
    ⟨.exn "a".data, .exn "b".data, .exn "c".data, .exn "d".data,
     .exn "e".data⟩
    ⟨.exn "a".data, .exn "b".data, .exn "c".data, .exn "d".data,
     .exn "e".data⟩ false false "FEB".data
    { row_num := 3, shipment_id := [], recipient := [], customer := [],
      tracking_num := "T1".data, carrier := "FedEx".data,
      current_status := " Delivered ".data,
      delivery_date := "2026-02-20".data } (by decide)).1

/-- C1: for a tracked item with a recognized carrier and a non-delivered
stored status, if the fresh adapter result carries a non-empty `error`
or its `status_key` is `unknown` or `not_found`, the decision is
report-only: the status shown in the report is the previously stored
status (or the sentinel `PENDING` if no status was stored), the stored
delivery date is carried forward unchanged, and no write is issued. -/
theorem C1_untrusted_report_only (u : Upstreams) (dryRun : Bool)
    (tab : PyStr) (row : TrackedRow)
    (hnd : pyUpper (pyStrip row.current_status) ∉ DONE_STATUSES)
    (hc : normalize_carrier row.carrier ∈ carrierAliasValues)
    (hu : (CarrierTracker.track u (normalize_carrier row.carrier)).error ≠ [] ∨
      (CarrierTracker.track u (normalize_carrier row.carrier)).status_key =
        "unknown".data ∨
      (CarrierTracker.track u (normalize_carrier row.carrier)).status_key =
        "not_found".data) :
    processRow u dryRun tab row =
      { adapterCalled := true, write := none,
        report := some
          { row := row,
            new_status := if pyUpper (pyStrip row.current_status) ≠ [] then
                            pyUpper (pyStrip row.current_status)
                          else "PENDING".data,
            delivery_date := row.delivery_date,
            raw_status :=
              (CarrierTracker.track u (normalize_carrier row.carrier)).raw_status,
            tab := tab } } := by
  apply processRow_bad_result_branch u dryRun tab row hnd hc
  rcases hu with h | h
  · left; exact h
  · right
    exact bad_display_of_bad_key _ (wf_router u _) h

/-- Witness for C1 at a concrete input: a FedEx timeout for a row stored
as `IN TRANSIT` keeps the stored status and date and issues no write. -/
theorem C1_untrusted_report_only_witness :
    processRow
      ⟨.exn "timeout".data, .exn "b".data, .exn "c".data, .exn "d".data,
       .exn "e".data⟩ false "FEB".data
      { row_num := 5, shipment_id := [], recipient := [], customer := [],
        tracking_num := "T9".data, carrier := "FedEx".data,
        current_status := "IN TRANSIT".data,
        delivery_date := "2026-02-20".data } =
      { adapterCalled := true, write := none,
        report := some
          { row := { row_num := 5, shipment_id := [], recipient := [],
                     customer := [], tracking_num := "T9".data,
                     carrier := "FedEx".data,
                     current_status := "IN TRANSIT".data,
                     delivery_date := "2026-02-20".data },
            new_status := "IN TRANSIT".data,
            delivery_date := "2026-02-20".data,
            raw_status := [],
            tab := "FEB".data } } := by
  rw [C1_untrusted_report_only
    ⟨.exn "timeout".data, .exn "b".data, .exn "c".data, .exn "d".data,
     .exn "e".data⟩ false "FEB".data
    { row_num := 5, shipment_id := [], recipient := [], customer := [],
      tracking_num := "T9".data, carrier := "FedEx".data,
      current_status := "IN TRANSIT".data,
      delivery_date := "2026-02-20".data }
    (by decide) (by decide) (by decide)]
  decide

/-- C2 counterexample: a trustworthy result whose display label matches
the stored one but whose delivery date differs: no write is issued, yet
the report entry carries the fresh date `2026-02-26`, not the stored
date `2026-02-25` — the item does not appear "with its current status
and date". -/
theorem C2_unchanged_status_reports_fresh_date :
    (processRow
      ⟨.ok ⟨none, "IT".data, "In transit".data, none, none, none,
            [("ESTIMATED_DELIVERY".data, "2026-02-26T08:00:00".data)]⟩,
       .exn "b".data, .exn "c".data, .exn "d".data, .exn "e".data⟩
      false "FEB".data
      { row_num := 5, shipment_id := [], recipient := [], customer := [],
        tracking_num := "T9".data, carrier := "fedex".data,
        current_status := "IN TRANSIT".data,
        delivery_date := "2026-02-25".data }).write = none ∧
    (processRow
      ⟨.ok ⟨none, "IT".data, "In transit".data, none, none, none,
            [("ESTIMATED_DELIVERY".data, "2026-02-26T08:00:00".data)]⟩,
       .exn "b".data, .exn "c".data, .exn "d".data, .exn "e".data⟩
      false "FEB".data
      { row_num := 5, shipment_id := [], recipient := [], customer := [],
        tracking_num := "T9".data, carrier := "fedex".data,
        current_status := "IN TRANSIT".data,
        delivery_date := "2026-02-25".data }).report.map
          (fun e => e.delivery_date) = some "2026-02-26".data ∧
    "2026-02-26".data ≠ "2026-02-25".data := by
  decide

/-- C2 (amended): for a tracked item with a recognized carrier, a
non-delivered stored status and a trustworthy fresh result, a write
decision (persisting the new status and new date) is emitted if and
only if the fresh status's display label differs from the stored label;
when it is unchanged, no write occurs but the item still appears in the
report with its current status and the fresh result's delivery date. -/
theorem C2_write_iff_label_changed (u : Upstreams) (tab : PyStr)
    (row : TrackedRow)
    (hnd : pyUpper (pyStrip row.current_status) ∉ DONE_STATUSES)
    (hc : normalize_carrier row.carrier ∈ carrierAliasValues)
    (herr : (CarrierTracker.track u (normalize_carrier row.carrier)).error = [])
    (hk1 : (CarrierTracker.track u (normalize_carrier row.carrier)).status_key ≠
      "unknown".data)
    (hk2 : (CarrierTracker.track u (normalize_carrier row.carrier)).status_key ≠
      "not_found".data) :
    ((processRow u false tab row).write ≠ none ↔
      pyUpper (CarrierTracker.track u (normalize_carrier row.carrier)).status ≠
        pyUpper (pyStrip row.current_status)) ∧
    (processRow u false tab row).write =
      (if pyUpper (CarrierTracker.track u
            (normalize_carrier row.carrier)).status ≠
          pyUpper (pyStrip row.current_status) then
        some (row.row_num,
          (CarrierTracker.track u (normalize_carrier row.carrier)).status,
          (CarrierTracker.track u (normalize_carrier row.carrier)).delivery_date)
      else none) ∧
    (processRow u false tab row).report = some
      { row := row,
        new_status :=
          (CarrierTracker.track u (normalize_carrier row.carrier)).status,
        delivery_date :=
          (CarrierTracker.track u (normalize_carrier row.carrier)).delivery_date,
        raw_status :=
          (CarrierTracker.track u (normalize_carrier row.carrier)).raw_status,
        tab := tab } := by
  have hgood : ¬((CarrierTracker.track u
      (normalize_carrier row.carrier)).error ≠ [] ∨
    pyUpper (CarrierTracker.track u (normalize_carrier row.carrier)).status ∈
      BAD_STATUSES) := by
    push_neg
    exact ⟨herr, good_display_of_good_key _ (wf_router u _) hk1 hk2⟩
  rw [processRow_good_result_branch u false tab row hnd hc hgood]
  refine ⟨?_, ?_, rfl⟩
  · by_cases hch : pyUpper (CarrierTracker.track u
        (normalize_carrier row.carrier)).status ≠
        pyUpper (pyStrip row.current_status)
    · simp [hch]
    · simp [hch]
  · by_cases hch : pyUpper (CarrierTracker.track u
        (normalize_carrier row.carrier)).status ≠
        pyUpper (pyStrip row.current_status)
    · simp [hch]
    · simp [hch]

/-- Witness for C2 (amended) at a concrete input: a fresh `DELIVERED`
result against a stored `IN TRANSIT` row yields a write of the new
status and date. -/
theorem C2_write_iff_label_changed_witness :
    (processRow
      ⟨.ok ⟨none, "DL".data, "Delivered".data, none, none, none,
            [("ACTUAL_DELIVERY".data, "2026-02-25T10:00:00".data)]⟩,
       .exn "b".data, .exn "c".data, .exn "d".data, .exn "e".data⟩
      false "FEB".data
      { row_num := 5, shipment_id := [], recipient := [], customer := [],
        tracking_num := "T9".data, carrier := "fedex".data,
        current_status := "IN TRANSIT".data,
        delivery_date := [] }).write ≠ none := by
  have h := C2_write_iff_label_changed
    ⟨.ok ⟨none, "DL".data, "Delivered".data, none, none, none,
          [("ACTUAL_DELIVERY".data, "2026-02-25T10:00:00".data)]⟩,
     .exn "b".data, .exn "c".data, .exn "d".data, .exn "e".data⟩
    "FEB".data
    { row_num := 5, shipment_id := [], recipient := [], customer := [],
      tracking_num := "T9".data, carrier := "fedex".data,
      current_status := "IN TRANSIT".data,
      delivery_date := [] }
    (by decide) (by decide) (by decide) (by decide) (by decide)
  exact h.1.mpr (by decide)

/-- C6 counterexample: an unrecognized carrier on a row with no stored
status produces a report entry whose status is the sentinel
`UNKNOWN CARRIER`, not the (empty) stored status carried forward. -/
theorem C6_empty_status_unknown_carrier_sentinel :
    (processRow
      ⟨.exn "a".data, .exn "b".data, .exn "c".data, .exn "d".data,
       .exn "e".data⟩ false "FEB".data
      { row_num := 4, shipment_id := [], recipient := [], customer := [],
        tracking_num := "T2".data, carrier := "carrier-x".data,
        current_status := [], delivery_date := [] }).report.map
          (fun e => e.new_status) = some "UNKNOWN CARRIER".data ∧
    "UNKNOWN CARRIER".data ≠ ([] : PyStr) := by
  decide

/-- C6 (amended): for a tracked item whose carrier identifier does not
normalize to a recognized carrier key, the run emits a report-only
decision carrying the stored status forward unchanged (or the sentinel
`UNKNOWN CARRIER` if no status was stored), invokes no adapter, issues
no write, and does not abort; the Router's own track entry point
likewise returns a Normalized Result with `status_key = unknown` and a
descriptive error for an unrecognized carrier instead of raising. -/
theorem C6_unknown_carrier_report_only (u u' : Upstreams) (dryRun : Bool)
    (tab : PyStr) (row : TrackedRow) (carrier : PyStr)
    (hnd : pyUpper (pyStrip row.current_status) ∉ DONE_STATUSES)
    (hc : normalize_carrier row.carrier ∉ carrierAliasValues)
    (hr : carrier ∉ (["fedex".data, "ups".data, "usps".data, "dhl".data,
      "royalmail".data] : List PyStr)) :
    processRow u dryRun tab row =
      { adapterCalled := false, write := none,
        report := some
          { row := row,
            new_status := if pyUpper (pyStrip row.current_status) ≠ [] then
                            pyUpper (pyStrip row.current_status)
                          else "UNKNOWN CARRIER".data,
            delivery_date := row.delivery_date,
            raw_status := [],
            tab := tab } } ∧
    processRow u dryRun tab row = processRow u' dryRun tab row ∧
    CarrierTracker.track u carrier =
      normalize_result "unknown".data [] [] []
        ("Unsupported carrier: ".data ++ carrier) := by
  have h1 : carrier ≠ "fedex".data := fun he => hr (by rw [he]; decide)
  have h2 : carrier ≠ "ups".data := fun he => hr (by rw [he]; decide)
  have h3 : carrier ≠ "usps".data := fun he => hr (by rw [he]; decide)
  have h4 : carrier ≠ "dhl".data := fun he => hr (by rw [he]; decide)
  have h5 : carrier ≠ "royalmail".data := fun he => hr (by rw [he]; decide)
  refine ⟨processRow_unknown_carrier_branch u dryRun tab row hnd (Or.inr hc),
    ?_, ?_⟩
  · rw [processRow_unknown_carrier_branch u dryRun tab row hnd (Or.inr hc),
      processRow_unknown_carrier_branch u' dryRun tab row hnd (Or.inr hc)]
  · unfold CarrierTracker.track
    rw [if_neg h1, if_neg h2, if_neg h3, if_neg h4, if_neg h5]

/-- Witness for C6 (amended) at a concrete input: the carrier string
`"carrier-x"` with a stored `PENDING` status is reported unchanged with
no adapter call and no write, and the Router answers `carrier-x` with
an `unknown` result and a descriptive error. -/
theorem C6_unknown_carrier_report_only_witness :
    processRow
      ⟨.exn "a".data, .exn "b".data, .exn "c".data, .exn "d".data,
       .exn "e".data⟩ false "FEB".data
      { row_num := 4, shipment_id := [], recipient := [], customer := [],
        tracking_num := "T2".data, carrier := "carrier-x".data,
        current_status := "PENDING".data, delivery_date := [] } =
      { adapterCalled := false, write := none,
        report := some
          { row := { row_num := 4, shipment_id := [], recipient := [],
                     customer := [], tracking_num := "T2".data,
                     carrier := "carrier-x".data,
                     current_status := "PENDING".data, delivery_date := [] },
            new_status := "PENDING".data,
            delivery_date := [],
            raw_status := [],
            tab := "FEB".data } } ∧
    (CarrierTracker.track
      ⟨.exn "a".data, .exn "b".data, .exn "c".data, .exn "d".data,
       .exn "e".data⟩ "carrier-x".data).status_key = "unknown".data ∧
    (CarrierTracker.track
      ⟨.exn "a".data, .exn "b".data, .exn "c".data, .exn "d".data,
       .exn "e".data⟩ "carrier-x".data).error =
      "Unsupported carrier: carrier-x".data := by
  have h := C6_unknown_carrier_report_only
    ⟨.exn "a".data, .exn "b".data, .exn "c".data, .exn "d".data,
     .exn "e".data⟩
    ⟨.exn "a".data, .exn "b".data, .exn "c".data, .exn "d".data,
     .exn "e".data⟩ false "FEB".data
    { row_num := 4, shipment_id := [], recipient := [], customer := [],
      tracking_num := "T2".data, carrier := "carrier-x".data,
      current_status := "PENDING".data, delivery_date := [] }
    "carrier-x".data (by decide) (by decide) (by decide)
  refine ⟨?_, ?_, ?_⟩
  · rw [h.1]; decide
  · rw [h.2.2]; rfl
  · rw [h.2.2]; decide

/-! ## Helper lemmas: cell writes -/

theorem update_tracking_row_nil_date (row_num : Nat) (status : PyStr) :
    update_tracking_row row_num status [] =
      [{ row := row_num, col := "M".data, value := status }] := rfl

theorem update_tracking_row_with_date (row_num : Nat) (status dd : PyStr)
    (h : dd ≠ []) :
    update_tracking_row row_num status dd =
      [{ row := row_num, col := "M".data, value := status },
       { row := row_num, col := "Q".data, value := dd }] := by
  simp only [update_tracking_row, if_pos h]
  rfl

/-- C9: `update_tracking_row` writes only the status cell (column M) of
the item's row, plus the delivery-date cell (column Q) only when the
new delivery date is non-empty; a write with an empty delivery date
leaves the stored date cell untouched, and no other cell of the sheet
is ever written. -/
theorem C9_update_row_frame (row_num : Nat) (status delivery_date : PyStr)
    (sheet : Sheet) (c : PyStr) (r : Nat) :
    (∀ upd ∈ update_tracking_row row_num status delivery_date,
      upd.row = row_num ∧ (upd.col = "M".data ∨ upd.col = "Q".data)) ∧
    applyCellUpdates (update_tracking_row row_num status delivery_date)
      sheet "M".data row_num = status ∧
    (delivery_date ≠ [] →
      applyCellUpdates (update_tracking_row row_num status delivery_date)
        sheet "Q".data row_num = delivery_date) ∧
    (delivery_date = [] →
      applyCellUpdates (update_tracking_row row_num status delivery_date)
        sheet "Q".data row_num = sheet "Q".data row_num) ∧
    (¬(c = "M".data ∧ r = row_num) → ¬(c = "Q".data ∧ r = row_num) →
      applyCellUpdates (update_tracking_row row_num status delivery_date)
        sheet c r = sheet c r) := by
  by_cases hd : delivery_date = []
  · rw [hd, update_tracking_row_nil_date]
    refine ⟨?_, ?_, ?_, ?_, ?_⟩
    · intro upd h
      rw [List.mem_singleton] at h
      subst h
      exact ⟨rfl, Or.inl rfl⟩
    · show (if ("M".data = "M".data ∧ row_num = row_num) then status
        else sheet "M".data row_num) = status
      rw [if_pos ⟨rfl, rfl⟩]
    · intro hne
      exact absurd rfl hne
    · intro _
      show (if ("Q".data = "M".data ∧ row_num = row_num) then status
        else sheet "Q".data row_num) = sheet "Q".data row_num
      rw [if_neg (fun h => absurd h.1 (by decide))]
    · intro hM _
      show (if (c = "M".data ∧ r = row_num) then status else sheet c r) =
        sheet c r
      rw [if_neg hM]
  · rw [update_tracking_row_with_date row_num status delivery_date hd]
    refine ⟨?_, ?_, ?_, ?_, ?_⟩
    · intro upd h
      rw [List.mem_cons, List.mem_singleton] at h
      rcases h with h | h <;> subst h
      · exact ⟨rfl, Or.inl rfl⟩
      · exact ⟨rfl, Or.inr rfl⟩
    · show (if ("M".data = "Q".data ∧ row_num = row_num) then delivery_date
        else if ("M".data = "M".data ∧ row_num = row_num) then status
        else sheet "M".data row_num) = status
      rw [if_neg (fun h => absurd h.1 (by decide)), if_pos ⟨rfl, rfl⟩]
    · intro _
      show (if ("Q".data = "Q".data ∧ row_num = row_num) then delivery_date
        else if ("Q".data = "M".data ∧ row_num = row_num) then status
        else sheet "Q".data row_num) = delivery_date
      rw [if_pos ⟨rfl, rfl⟩]
    · intro he
      exact absurd he hd
    · intro hM hQ
      show (if (c = "Q".data ∧ r = row_num) then delivery_date
        else if (c = "M".data ∧ r = row_num) then status
        else sheet c r) = sheet c r
      rw [if_neg hQ, if_neg hM]

/-- Witness for C9 at a concrete input: a write of `DELIVERED` with a
date touches exactly M7 and Q7 and leaves another cell unchanged. -/
theorem C9_update_row_frame_witness :
    applyCellUpdates
      (update_tracking_row 7 "DELIVERED".data "2026-02-25".data)
      (fun _ _ => []) "Q".data 7 = "2026-02-25".data ∧
    applyCellUpdates
      (update_tracking_row 7 "DELIVERED".data "2026-02-25".data)
      (fun _ _ => []) "P".data 7 = (fun _ _ => ([] : PyStr)) "P".data 7 := by
  have h := C9_update_row_frame 7 "DELIVERED".data "2026-02-25".data
    (fun _ _ => []) "P".data 7
  exact ⟨h.2.2.1 (by decide), h.2.2.2.2 (by decide) (by decide)⟩

/-! ## Helper lemmas: summary dedup -/

theorem keepFirstByKey_filter_ne {α β : Type} [DecidableEq β]
    (key : α → β) (k : β) (l : List α) :
    keepFirstByKey key (l.filter (fun y => key y ≠ k)) =
      (keepFirstByKey key l).filter (fun y => key y ≠ k) := by
  induction l with
  | nil => rfl
  | cons x xs ih =>
    by_cases hx : key x = k
    · rw [List.filter_cons_of_neg (by simp [hx])]
      simp only [keepFirstByKey]
      rw [List.filter_cons_of_neg (by simp [hx]), ih, hx,
        List.filter_filter]
      apply List.filter_congr
      intro a _
      by_cases h1 : key a = k <;> simp [h1]
    · rw [List.filter_cons_of_pos (by simp [hx])]
      simp only [keepFirstByKey]
      rw [List.filter_cons_of_pos (by simp [hx]), ih,
        List.filter_filter, List.filter_filter]
      congr 1
      apply List.filter_congr
      intro a _
      by_cases h1 : key a = k <;> by_cases h2 : key a = key x <;>
        simp [h1, h2]

theorem summaryDedup_eq_keepFirst (l : List ReportEntry) (seen : List PyStr)
    (h : ∀ r ∈ l, pyStrip r.row.tracking_num ≠ []) :
    summaryDedup l seen =
      keepFirstByKey (fun r => pyStrip r.row.tracking_num)
        (l.filter (fun r => pyStrip r.row.tracking_num ∉ seen)) := by
  induction l generalizing seen with
  | nil => simp [summaryDedup, keepFirstByKey]
  | cons r rest ih =>
    have htn : pyStrip r.row.tracking_num ≠ [] := h r (List.mem_cons_self r rest)
    have hrest : ∀ x ∈ rest, pyStrip x.row.tracking_num ≠ [] :=
      fun x hx => h x (List.mem_cons_of_mem r hx)
    by_cases hs : pyStrip r.row.tracking_num ∈ seen
    · have hcond : ¬(pyStrip r.row.tracking_num ≠ [] ∧
          pyStrip r.row.tracking_num ∉ seen) := by
        push_neg
        intro _
        exact hs
      rw [summaryDedup, if_neg hcond, List.filter_cons_of_neg (by simpa using hs)]
      exact ih seen hrest
    · have hcond : pyStrip r.row.tracking_num ≠ [] ∧
          pyStrip r.row.tracking_num ∉ seen := ⟨htn, hs⟩
      rw [summaryDedup, if_pos hcond, List.filter_cons_of_pos (by simpa using hs)]
      simp only [keepFirstByKey]
      congr 1
      rw [ih (pyStrip r.row.tracking_num :: seen) hrest,
        ← keepFirstByKey_filter_ne]
      congr 1
      rw [List.filter_filter]
      apply List.filter_congr
      intro a _
      by_cases h1 : pyStrip a.row.tracking_num = pyStrip r.row.tracking_num <;>
        by_cases h2 : pyStrip a.row.tracking_num ∈ seen <;>
          simp [h1, h2, List.mem_cons]

/-- C7: aggregation first drops every item whose reported status is
`DELIVERED`, then deduplicates the remainder by tracking identifier
keeping the first occurrence in scan order; if no items remain after
the delivered-drop step, the single "all delivered" message is emitted
instead of an empty report.  (Run-produced report entries always carry
a non-empty tracking number, the hypothesis below.) -/
theorem C7_summary_drop_dedup (all_results : List ReportEntry)
    (hids : ∀ r ∈ all_results, pyStrip r.row.tracking_num ≠ []) :
    sendDailySummaryPlan all_results =
      (if summaryActive all_results = [] then
        .sentinel "All shipments delivered. Nothing to track today.".data
      else
        .report (keepFirstByKey (fun r => pyStrip r.row.tracking_num)
          (summaryActive all_results))) := by
  unfold sendDailySummaryPlan
  by_cases ha : summaryActive all_results = []
  · rw [if_pos ha, if_pos ha]
  · rw [if_neg ha, if_neg ha]
    have hact : ∀ r ∈ summaryActive all_results,
        pyStrip r.row.tracking_num ≠ [] := by
      intro r hr
      exact hids r (List.mem_of_mem_filter hr)
    rw [summaryDedup_eq_keepFirst _ [] hact,
      List.filter_eq_self.mpr (fun a _ => by simp)]

/-- Sample run results for the C7 witness: one delivered item, one
duplicated tracking number, one singleton. -/
def c7SampleResults : List ReportEntry :=
  [{ row := { row_num := 3, shipment_id := [], recipient := [],
              customer := [], tracking_num := "A1".data,
              carrier := "fedex".data, current_status := "IN TRANSIT".data,
              delivery_date := [] },
     new_status := "DELIVERED".data, delivery_date := "2026-02-25".data,
     raw_status := [], tab := "FEB".data },
   { row := { row_num := 4, shipment_id := [], recipient := [],
              customer := [], tracking_num := "B2".data,
              carrier := "ups".data, current_status := "IN TRANSIT".data,
              delivery_date := [] },
     new_status := "IN TRANSIT".data, delivery_date := [],
     raw_status := [], tab := "FEB".data },
   { row := { row_num := 7, shipment_id := [], recipient := [],
              customer := [], tracking_num := "B2".data,
              carrier := "ups".data, current_status := "EXCEPTION".data,
              delivery_date := [] },
     new_status := "EXCEPTION".data, delivery_date := [],
     raw_status := [], tab := "Hannah".data },
   { row := { row_num := 9, shipment_id := [], recipient := [],
              customer := [], tracking_num := "C3".data,
              carrier := "dhl".data, current_status := [],
              delivery_date := [] },
     new_status := "PENDING".data, delivery_date := [],
     raw_status := [], tab := "FEB".data }]

/-- Witness for C7 at the sample list: the delivered item is dropped,
the duplicate `B2` keeps its first occurrence, and the plan is a
report, not the sentinel. -/
theorem C7_summary_drop_dedup_witness :
    sendDailySummaryPlan c7SampleResults =
      .report [c7SampleResults.get ⟨1, by decide⟩,
               c7SampleResults.get ⟨3, by decide⟩] := by
  have h := C7_summary_drop_dedup c7SampleResults (by decide)
  rw [h]
  decide
